import Mathlib

/-!
Shallow embedding of the traczi-billing middleware (Node.js/Express), covering:

* `lib/traccarClient.js` — the external user-directory adapter (Traccar API):
  session authentication with cached cookie, user lookup/creation, device-limit
  and status updates, credential verification;
* `routes/webhooks.js` — the Stripe webhook route and its six event handlers;
* `lib/subscriptionService.js` — the subscription repository over MySQL
  (`tc_user_subscriptions`, `tc_subscription_history`, `tc_stripe_events`),
  including the `sp_sync_subscription_to_user` stored procedure and the
  history/sync triggers defined in `database/verify_current_state.sql`.

Network calls are modelled by threading an explicit availability flag (`up`)
or an outcome value; database statements are modelled as pure state
transitions over a `DB` record, with a per-statement failure environment
(`env : Nat → Bool`) to express mid-sequence statement failures.  A MySQL
transaction's rollback is modelled by returning the pre-transaction state.
-/

namespace Traczi

/-! ## JavaScript value helpers

JS truthiness as used by the source: `undefined`, `null`, `""`, `0` and `NaN`
are falsy.  Optional strings/ints model possibly-undefined JS values, with
`none` standing for `undefined`/`null`/`NaN`. -/

/-- JS `!s` for a possibly-undefined string: true when undefined or empty. -/
def jsStrFalsy : Option String → Bool
  | none => true
  | some t => t == ""

/-- JS `x || d` for a possibly-undefined number `x`: `undefined`, `NaN` and
`0` are falsy and yield the default. -/
def jsOrInt : Option Int → Int → Int
  | none, d => d
  | some 0, d => d
  | some n, _ => n

/-- JS `x || d` for a possibly-undefined string. -/
def jsOrStr (x : Option String) (d : String) : String :=
  if jsStrFalsy x then d else x.getD d

/-- The characters before the first occurrence of a separator character
(the JS idiom `s.split(sep)[0]`). -/
def takeUntilChar (stop : Char) : List Char → List Char
  | [] => []
  | c :: rest => if c = stop then [] else c :: takeUntilChar stop rest

/-- JS `email.split('@')[0]`. -/
def emailLocalPart (email : String) : String :=
  String.mk (takeUntilChar '@' email.data)

/-- An attribute object: string keys to string values (as serialized). -/
abbrev AttrMap := List (String × String)

/-- Lookup of a key in an attribute object. -/
def getAttr (m : AttrMap) (k : String) : Option String :=
  (m.find? (fun p => p.1 == k)).map (fun p => p.2)

/-- JS object spread `{...base, ...delta}`: keys of `delta` win. -/
def jsSpread (base delta : AttrMap) : AttrMap :=
  base.filter (fun p => (delta.find? (fun q => q.1 == p.1)).isNone) ++ delta

/-- An attribute singleton for a possibly-undefined value: JSON.stringify
drops keys whose value is `undefined`, so an undefined value contributes no
key. -/
def optAttr (k : String) (v : Option String) : AttrMap :=
  match v with
  | some s => [(k, s)]
  | none => []

/-- The `response.ok` predicate of the Fetch API: status in 200..299. -/
def responseOk (s : Nat) : Bool := 200 ≤ s && s < 300

/-! ## External user directory (Traccar) — data model -/

/-- A Traccar user record as held by the external server. -/
structure TUser where
  id : Nat
  name : String
  email : String
  password : String
  disabled : Bool
  administrator : Bool
  readonly : Bool
  deviceReadonly : Bool
  limitCommands : Bool
  deviceLimit : Int
  attributes : AttrMap
  deriving Repr, DecidableEq

/-- The external directory state, plus counters of the mutating HTTP
requests issued against it (`putCount` for `PUT /api/users/:id`,
`postCount` for `POST /api/users`). -/
structure Directory where
  users : List TUser
  nextUserId : Nat
  putCount : Nat
  postCount : Nat
  deriving Repr, DecidableEq

/-- Replace the first user with a matching id (the server-side effect of
`PUT /api/users/:id`). -/
def replaceById (us : List TUser) (u : TUser) : List TUser :=
  match us with
  | [] => []
  | v :: rest => if v.id == u.id then u :: rest else v :: replaceById rest u

/-! ## Traccar client operations (`lib/traccarClient.js`)

Each operation runs through `request()`, which throws on network failure or
a non-2xx response.  The flag `up` models whether requests against the
directory succeed; when `up = false` every request throws and the directory
is left untouched. -/

/-- Body of `getUserByEmail(email)`: lists `/api/users` and takes
`users.find(user => user.email === email)`.  The argument is optional
because callers may pass an undefined email, which matches no user. -/
def getUserByEmail (up : Bool) (d : Directory) (email : Option String) :
    Except String (Option TUser) :=
  if up then .ok (d.users.find? (fun u => some u.email == email))
  else .error "Traccar API request failed"

/-- Body of `getUserById(userId)`: `GET /api/users/:id`; a missing user is a
non-2xx response, which `request()` turns into a thrown error. -/
def getUserById (up : Bool) (d : Directory) (userId : Nat) :
    Except String TUser :=
  if up then
    match d.users.find? (fun u => u.id == userId) with
    | some u => .ok u
    | none => .error "Traccar API error: user not found"
  else .error "Traccar API request failed"

/-- A `PUT /api/users/:id` request carrying a full user record. -/
def putUser (up : Bool) (d : Directory) (u : TUser) : Except String Directory :=
  if up then
    if d.users.any (fun v => v.id == u.id) then
      .ok { d with users := replaceById d.users u, putCount := d.putCount + 1 }
    else .error "Traccar API error: user not found"
  else .error "Traccar API request failed"

/-- Body of `updateUserLimits(userId, deviceLimit, attributes)`:
read-modify-write — fetch the user, overwrite `deviceLimit`, spread the new
attributes over the old ones, and `PUT` the full record back. -/
def updateUserLimits (up : Bool) (d : Directory) (userId : Nat)
    (deviceLimit : Int) (attrs : AttrMap) : Except String (TUser × Directory) :=
  match getUserById up d userId with
  | .error e => .error e
  | .ok u =>
    match putUser up d { u with
        deviceLimit := deviceLimit
        attributes := jsSpread u.attributes attrs } with
    | .error e => .error e
    | .ok d2 => .ok ({ u with
        deviceLimit := deviceLimit
        attributes := jsSpread u.attributes attrs }, d2)

/-- Body of `setUserStatus(userId, disabled)`: read-modify-write of the
`disabled` flag. -/
def setUserStatus (up : Bool) (d : Directory) (userId : Nat) (disabled : Bool) :
    Except String (TUser × Directory) :=
  match getUserById up d userId with
  | .error e => .error e
  | .ok u =>
    match putUser up d { u with disabled := disabled } with
    | .error e => .error e
    | .ok d2 => .ok ({ u with disabled := disabled }, d2)

/-- Profile accepted by `createUser(userData)`; `deviceLimit` is optional
since callers pass `parseInt` results, which may be `NaN` (modelled as
`none`). -/
structure NewUserProfile where
  name : String
  email : String
  password : String
  deviceLimit : Option Int
  deriving Repr, DecidableEq

/-- The request body `userPayload` built by `createUser`, field for field:
`deviceLimit: userData.deviceLimit || -1`, `disabled: false`,
`administrator: false`, `readonly: false`, `deviceReadonly: false`,
`limitCommands: false`. -/
structure UserPayload where
  name : String
  email : String
  password : String
  deviceLimit : Int
  disabled : Bool
  administrator : Bool
  readonly : Bool
  deviceReadonly : Bool
  limitCommands : Bool
  deriving Repr, DecidableEq

/-- The payload object literal of `createUser`. -/
def createUserPayload (p : NewUserProfile) : UserPayload :=
  { name := p.name
    email := p.email
    password := p.password
    deviceLimit := jsOrInt p.deviceLimit (-1)
    disabled := false
    administrator := false
    readonly := false
    deviceReadonly := false
    limitCommands := false }

/-- Body of `createUser(userData)`: `POST /api/users` with the payload; the
server assigns the next id and stores the record with empty attributes. -/
def createUser (up : Bool) (d : Directory) (p : NewUserProfile) :
    Except String (TUser × Directory) :=
  if up then
    let pay := createUserPayload p
    let u : TUser :=
      { id := d.nextUserId
        name := pay.name
        email := pay.email
        password := pay.password
        disabled := pay.disabled
        administrator := pay.administrator
        readonly := pay.readonly
        deviceReadonly := pay.deviceReadonly
        limitCommands := pay.limitCommands
        deviceLimit := pay.deviceLimit
        attributes := [] }
    .ok (u, { d with
      users := d.users ++ [u]
      nextUserId := d.nextUserId + 1
      postCount := d.postCount + 1 })
  else .error "Traccar API request failed"

/-- Body of `updateUserPassword(userId, newPassword)`: read-modify-write of
the password; returns `true` on success. -/
def updateUserPassword (up : Bool) (d : Directory) (userId : Nat)
    (newPassword : String) : Except String (Bool × Directory) :=
  match getUserById up d userId with
  | .error e => .error e
  | .ok u =>
    match putUser up d { u with password := newPassword } with
    | .error e => .error e
    | .ok d2 => .ok (true, d2)

/-- Subscription metadata attributes written by
`updateSubscriptionMetadata`. -/
structure SubMeta where
  customerId : Option String
  subscriptionId : Option String
  plan : Option String
  status : Option String
  startDate : Option String
  deriving Repr, DecidableEq

/-- The attribute delta written by `updateSubscriptionMetadata` (undefined
values contribute no key when serialized). -/
def metaAttrs (m : SubMeta) : AttrMap :=
  optAttr "stripeCustomerId" m.customerId ++
  optAttr "stripeSubscriptionId" m.subscriptionId ++
  optAttr "subscriptionPlan" m.plan ++
  optAttr "subscriptionStatus" m.status ++
  optAttr "subscriptionStartDate" m.startDate

/-- Body of `updateSubscriptionMetadata(userId, subscriptionData)`:
read-modify-write spreading the five `stripe*`/`subscription*` attribute
keys over the existing attributes (undefined values contribute no key when
serialized). -/
def updateSubscriptionMetadata (up : Bool) (d : Directory) (userId : Nat)
    (m : SubMeta) : Except String (TUser × Directory) :=
  match getUserById up d userId with
  | .error e => .error e
  | .ok u =>
    match putUser up d { u with attributes := jsSpread u.attributes (metaAttrs m) } with
    | .error e => .error e
    | .ok d2 => .ok ({ u with attributes := jsSpread u.attributes (metaAttrs m) }, d2)

/-! ## Credential verification (`verifyUserCredentials`) -/

/-- Outcome of a single Fetch-API call: a network-level failure (the promise
rejects) or an HTTP response with a status code. -/
inductive FetchOutcome where
  | netError
  | response (status : Nat)
  deriving Repr, DecidableEq

/-- The `try` block of `verifyUserCredentials`: the login fetch either
throws (network error) or yields a response, and the function returns
`response.ok`. -/
def verifyAttempt (o : FetchOutcome) : Except String Bool :=
  match o with
  | .netError => .error "fetch failed"
  | .response s => .ok (responseOk s)

/-- Body of `verifyUserCredentials(email, password)`: the whole attempt is
wrapped in `try/catch`; a thrown error is caught and the function returns
`false`. -/
def verifyUserCredentials (o : FetchOutcome) : Bool :=
  match verifyAttempt o with
  | .ok b => b
  | .error _ => false

/-! ## Admin session authentication (`authenticate`) -/

/-- The client's cached admin session: `this.sessionCookie` and
`this.sessionExpiry` (a millisecond timestamp), both initially `null`. -/
structure TSession where
  sessionCookie : Option String
  sessionExpiry : Option Nat
  deriving Repr, DecidableEq

/-- Outcome of the `POST /api/session` fetch: network failure, or a
response with a status and an optional `set-cookie` header. -/
inductive AuthOutcome where
  | netError
  | response (status : Nat) (setCookie : Option String)
  deriving Repr, DecidableEq

/-- JS `cookies.split(';')[0]`. -/
def cookieFirstPart (s : String) : String :=
  String.mk (takeUntilChar ';' s.data)

/-- The body of `authenticate()` past the cache check: performs exactly one
login fetch (consuming the head of the outcome list).  On a non-2xx response
or network error it throws; on success it stores `cookies.split(';')[0]`
with an expiry 23 hours from now (sessions typically last 24 hours), or
leaves the cache untouched when no `set-cookie` header is present.  The
returned `Nat` counts login fetches performed. -/
def authFresh (st : TSession) (now : Nat) (os : List AuthOutcome) :
    Except String (Option String) × TSession × Nat :=
  match os.headD .netError with
  | .netError => (.error "Failed to authenticate with Traccar", st, 1)
  | .response status setCookie =>
    if responseOk status then
      match setCookie with
      | some cs =>
        let st2 : TSession :=
          { sessionCookie := some (cookieFirstPart cs)
            sessionExpiry := some (now + 23 * 60 * 60 * 1000) }
        (.ok st2.sessionCookie, st2, 1)
      | none => (.ok st.sessionCookie, st, 1)
    else (.error "Traccar authentication failed", st, 1)

/-- Body of `authenticate()`: if a cached cookie exists with an expiry still
in the future, return it without any network call; otherwise run the login
fetch (`authFresh`). -/
def authenticate (st : TSession) (now : Nat) (os : List AuthOutcome) :
    Except String (Option String) × TSession × Nat :=
  match st.sessionCookie, st.sessionExpiry with
  | some c, some e =>
    if now < e then (.ok (some c), st, 0) else authFresh st now os
  | some _, none => authFresh st now os
  | none, _ => authFresh st now os

/-! ## Relational store — data model

Tables from `database/verify_current_state.sql`: `tc_users` (the columns the
sync procedure touches), `tc_user_subscriptions`, `tc_subscription_history`,
`tc_stripe_events`.  Timestamps are opaque strings; `NOW()` is passed in as
an explicit `now` argument. -/

/-- The columns of `tc_users` written by `sp_sync_subscription_to_user`. -/
structure TcUserRow where
  id : Nat
  devicelimit : Int
  expirationtime : Option String
  deriving Repr, DecidableEq

/-- A row of `tc_user_subscriptions`. -/
structure SubRow where
  id : Nat
  userid : Nat
  plan_id : String
  stripe_customer_id : String
  stripe_subscription_id : String
  stripe_payment_method_id : Option String
  status : String
  device_limit : Int
  current_period_start : Option String
  current_period_end : Option String
  trial_start : Option String
  trial_end : Option String
  canceled_at : Option String
  cancel_at_period_end : Bool
  ended_at : Option String
  deriving Repr, DecidableEq

/-- A row of `tc_subscription_history` (append-only audit log).  JSON
metadata is modelled structurally as a key-value list. -/
structure HistRow where
  userid : Nat
  subscription_id : Nat
  plan_id : String
  status : String
  event_type : String
  description : String
  metadata : Option AttrMap
  deriving Repr, DecidableEq

/-- A row of `tc_stripe_events` (`stripe_event_id` is UNIQUE). -/
structure EventRow where
  stripe_event_id : String
  event_type : String
  stripe_customer_id : Option String
  stripe_subscription_id : Option String
  userid : Option Nat
  payload : String
  processed : Bool
  error_message : Option String
  processed_at : Option String
  deriving Repr, DecidableEq

/-- The relational store.  `nextSubId` models the AUTO_INCREMENT counter of
`tc_user_subscriptions`. -/
structure DB where
  users : List TcUserRow
  subs : List SubRow
  history : List HistRow
  events : List EventRow
  nextSubId : Nat
  deriving Repr, DecidableEq

/-- The `status IN ('active', 'trialing')` predicate. -/
def statusActiveLike (s : String) : Bool := s == "active" || s == "trialing"

/-- Stored procedure `sp_sync_subscription_to_user(userid)`: select the
first active/trialing subscription of the user (variables stay NULL when
none exists, and `COALESCE(v_device_limit, -1)` then yields -1) and write
`devicelimit`/`expirationtime` into `tc_users`. -/
def syncToUser (db : DB) (userId : Nat) : DB :=
  let sel := db.subs.find? (fun r => r.userid == userId && statusActiveLike r.status)
  let dl : Int := match sel with
    | some r => r.device_limit
    | none => -1
  let exp : Option String := match sel with
    | some r => r.current_period_end
    | none => none
  { db with users := db.users.map (fun u =>
      if u.id == userId then { u with devicelimit := dl, expirationtime := exp } else u) }

/-- Append one history row derived from a subscription row (the INSERT done
by `sp_add_subscription_history`, which reads `plan_id`/`status` of the row
it is passed). -/
def histAppend (db : DB) (r : SubRow) (eventType description : String)
    (metadata : Option AttrMap) : DB :=
  { db with history := db.history ++
      [{ userid := r.userid, subscription_id := r.id, plan_id := r.plan_id,
         status := r.status, event_type := eventType, description := description,
         metadata := metadata }] }

/-- AFTER UPDATE triggers on `tc_user_subscriptions`, applied for one
updated row (`old` → `nw`), in trigger-creation order:
`tr_subscription_sync_after_update` syncs when either status is
active/trialing; `tr_subscription_history_after_update` appends a
`status_changed` and/or `plan_changed` history row via
`sp_add_subscription_history`. -/
def updateSubRowTriggers (db : DB) (old nw : SubRow) : DB :=
  let db1 := if statusActiveLike nw.status || statusActiveLike old.status then
      syncToUser db nw.userid
    else db
  let db2 := if old.status != nw.status then
      histAppend db1 nw "status_changed"
        ("Status changed from " ++ old.status ++ " to " ++ nw.status)
        (some [("old_status", old.status), ("new_status", nw.status)])
    else db1
  if old.plan_id != nw.plan_id then
    histAppend db2 nw "plan_changed"
      ("Plan changed from " ++ old.plan_id ++ " to " ++ nw.plan_id)
      (some [("old_plan", old.plan_id), ("new_plan", nw.plan_id)])
  else db2

/-- AFTER INSERT triggers on `tc_user_subscriptions` for a freshly inserted
row: `tr_subscription_sync_after_insert` syncs when the status is
active/trialing; `tr_subscription_history_after_insert` always appends a
`subscription_created` history row. -/
def insertSubTriggers (db : DB) (row : SubRow) : DB :=
  let db1 := if statusActiveLike row.status then syncToUser db row.userid else db
  histAppend db1 row "subscription_created"
    ("Subscription created: " ++ row.plan_id)
    (some [("plan_id", row.plan_id), ("status", row.status),
           ("device_limit", toString row.device_limit)])

/-- The `subscriptionData` argument of `upsertSubscription`. -/
structure SubData where
  plan_id : String
  stripe_customer_id : String
  stripe_subscription_id : String
  stripe_payment_method_id : Option String
  status : String
  device_limit : Int
  current_period_start : Option String
  current_period_end : Option String
  trial_start : Option String
  trial_end : Option String
  canceled_at : Option String
  cancel_at_period_end : Option Bool
  deriving Repr, DecidableEq

/-- The SET clause of the UPDATE branch of `upsertSubscription`
(`cancel_at_period_end = subscriptionData.cancel_at_period_end || false`). -/
def upsertUpdatedRow (r : SubRow) (d : SubData) : SubRow :=
  { r with
    plan_id := d.plan_id
    stripe_customer_id := d.stripe_customer_id
    stripe_subscription_id := d.stripe_subscription_id
    stripe_payment_method_id := d.stripe_payment_method_id
    status := d.status
    device_limit := d.device_limit
    current_period_start := d.current_period_start
    current_period_end := d.current_period_end
    trial_start := d.trial_start
    trial_end := d.trial_end
    canceled_at := d.canceled_at
    cancel_at_period_end := d.cancel_at_period_end.getD false }

/-- Execute the UPDATE statement of `upsertSubscription` on the row with the
given id, then fire its AFTER UPDATE triggers against the post-update
table. -/
def execUpdateSub (db : DB) (subId : Nat) (d : SubData) : DB :=
  match db.subs.find? (fun r => r.id == subId) with
  | none => db
  | some old =>
    let nw := upsertUpdatedRow old d
    let db1 := { db with subs := db.subs.map (fun r => if r.id == subId then nw else r) }
    updateSubRowTriggers db1 old nw

/-- Execute the INSERT statement of `upsertSubscription` (the column list
omits `canceled_at` and `ended_at`, which stay NULL), then fire the AFTER
INSERT triggers.  Returns the new AUTO_INCREMENT id (`result.insertId`). -/
def execInsertSub (db : DB) (userId : Nat) (d : SubData) : DB × Nat :=
  let row : SubRow :=
    { id := db.nextSubId
      userid := userId
      plan_id := d.plan_id
      stripe_customer_id := d.stripe_customer_id
      stripe_subscription_id := d.stripe_subscription_id
      stripe_payment_method_id := d.stripe_payment_method_id
      status := d.status
      device_limit := d.device_limit
      current_period_start := d.current_period_start
      current_period_end := d.current_period_end
      trial_start := d.trial_start
      trial_end := d.trial_end
      canceled_at := none
      cancel_at_period_end := d.cancel_at_period_end.getD false
      ended_at := none }
  let db1 := { db with subs := db.subs ++ [row], nextSubId := db.nextSubId + 1 }
  (insertSubTriggers db1 row, row.id)

/-! ## Subscription service (`lib/subscriptionService.js`)

Each method runs a sequence of SQL statements.  The environment
`env : Nat → Bool` says whether the method's n-th statement succeeds;
a failing statement throws.  Methods return the thrown error (if any)
together with the database state as committed so far.  `upsertSubscription`
is the only method that opens an explicit transaction: its rollback is
modelled by returning the pre-call state on error. -/

/-- Body of `upsertSubscription(userId, subscriptionData)`: inside one
transaction — SELECT the existing subscription of the user (statement 0),
UPDATE it or INSERT a new row (statement 1), CALL the sync procedure
(statement 2) — then commit.  Any statement error rolls the transaction
back, leaving the database unchanged. -/
def upsertSubscription (env : Nat → Bool) (db : DB) (userId : Nat) (d : SubData) :
    Except String Nat × DB :=
  if !env 0 then (.error "select failed", db)
  else
    match db.subs.find? (fun r => r.userid == userId) with
    | some r =>
      if !env 1 then (.error "update failed", db)
      else
        let db1 := execUpdateSub db r.id d
        if !env 2 then (.error "sync failed", db)
        else (.ok r.id, syncToUser db1 userId)
    | none =>
      if !env 1 then (.error "insert failed", db)
      else
        let p := execInsertSub db userId d
        if !env 2 then (.error "sync failed", db)
        else (.ok p.2, syncToUser p.1 userId)

/-- Body of `addSubscriptionHistory(userId, eventType, description,
metadata)`: a single `INSERT ... SELECT` that copies `id`, `plan_id` and
`status` from the user's first subscription row (zero rows inserted when the
user has none).  Errors are caught and swallowed — history is
non-critical — so the statement-success flag only decides whether the row
lands. -/
def addSubscriptionHistory (stmtOk : Bool) (db : DB) (userId : Nat)
    (eventType description : String) (metadata : Option AttrMap) : DB :=
  if !stmtOk then db
  else
    match db.subs.find? (fun r => r.userid == userId) with
    | some r =>
      { db with history := db.history ++
          [{ userid := userId, subscription_id := r.id, plan_id := r.plan_id,
             status := r.status, event_type := eventType,
             description := description, metadata := metadata }] }
    | none => db

/-- The SET clause of `cancelSubscription`'s UPDATE:
`canceled_at = CASE WHEN flag THEN NOW() ELSE canceled_at END`. -/
def cancelUpdatedRow (r : SubRow) (flag : Bool) (now : String) : SubRow :=
  { r with
    cancel_at_period_end := flag
    canceled_at := if flag then some now else r.canceled_at }

/-- The UPDATE statement of `cancelSubscription`: all rows of the user with
status active/trialing get the flag.  Status and plan are unchanged, so the
history trigger never fires; the sync trigger fires for matched rows, which
amounts to one sync call against the post-update table. -/
def execCancelUpdate (db : DB) (userId : Nat) (flag : Bool) (now : String) : DB :=
  let matched := db.subs.any (fun r => r.userid == userId && statusActiveLike r.status)
  let db1 := { db with subs := db.subs.map (fun r =>
      if r.userid == userId && statusActiveLike r.status then
        cancelUpdatedRow r flag now
      else r) }
  if matched then syncToUser db1 userId else db1

/-- Body of `cancelSubscription(userId, cancelAtPeriodEnd)`: run the flag
UPDATE (statement 0, no transaction), then unconditionally append one
history entry (statement 1, whose failure is swallowed by
`addSubscriptionHistory`). -/
def cancelSubscription (env : Nat → Bool) (now : String) (db : DB)
    (userId : Nat) (flag : Bool) : Except String Unit × DB :=
  if !env 0 then (.error "query failed", db)
  else
    let db1 := execCancelUpdate db userId flag now
    let desc := if flag then "Subscription will cancel at period end"
      else "Subscription cancellation undone"
    (.ok (), addSubscriptionHistory (env 1) db1 userId "subscription_canceled" desc none)

/-- The UPDATE statement of `endSubscription`: force status to canceled for
every non-canceled row of the user.  Its AFTER UPDATE triggers fire per
matched row: the status changes, so a `status_changed` history row is
appended for each, and the sync trigger (old status active/trialing) runs
against the post-update table. -/
def execEndUpdate (db : DB) (userId : Nat) (now : String) : DB :=
  let matchedRows := db.subs.filter (fun r => r.userid == userId && r.status != "canceled")
  let db1 := { db with subs := db.subs.map (fun r =>
      if r.userid == userId && r.status != "canceled" then
        { r with status := "canceled", ended_at := some now }
      else r) }
  let db2 := if matchedRows.any (fun r => statusActiveLike r.status) then
      syncToUser db1 userId
    else db1
  matchedRows.foldl (fun acc r =>
    histAppend acc { r with status := "canceled", ended_at := some now }
      "status_changed" ("Status changed from " ++ r.status ++ " to canceled")
      (some [("old_status", r.status), ("new_status", "canceled")])) db2

/-- Body of `endSubscription(userId)`: the status UPDATE (statement 0), the
explicit `CALL sp_sync_subscription_to_user` (statement 1), then the history
entry (statement 2, failure swallowed).  No transaction: a statement error
leaves the effects of earlier statements committed. -/
def endSubscription (env : Nat → Bool) (now : String) (db : DB) (userId : Nat) :
    Except String Unit × DB :=
  if !env 0 then (.error "update failed", db)
  else
    let db1 := execEndUpdate db userId now
    if !env 1 then (.error "sync failed", db1)
    else
      let db2 := syncToUser db1 userId
      (.ok (), addSubscriptionHistory (env 2) db2 userId "subscription_ended"
        "Subscription ended" none)

/-- The `eventData` argument of `logStripeEvent`. -/
structure EventLogData where
  stripe_event_id : String
  event_type : String
  stripe_customer_id : Option String
  stripe_subscription_id : Option String
  userid : Option Nat
  payload : String
  processed : Option Bool
  error_message : Option String
  deriving Repr, DecidableEq

/-- Body of `logStripeEvent(eventData)`: INSERT keyed by the unique
`stripe_event_id` with `ON DUPLICATE KEY UPDATE` of `processed`,
`error_message` and (when newly processed) `processed_at`.  Errors are
caught and swallowed — event logging is non-critical. -/
def logStripeEvent (stmtOk : Bool) (now : String) (db : DB) (e : EventLogData) : DB :=
  if !stmtOk then db
  else
    let processed := e.processed.getD false
    if db.events.any (fun r => r.stripe_event_id == e.stripe_event_id) then
      { db with events := db.events.map (fun r =>
          if r.stripe_event_id == e.stripe_event_id then
            { r with
              processed := processed
              error_message := e.error_message
              processed_at := if processed then some now else r.processed_at }
          else r) }
    else
      { db with events := db.events ++
          [{ stripe_event_id := e.stripe_event_id
             event_type := e.event_type
             stripe_customer_id := e.stripe_customer_id
             stripe_subscription_id := e.stripe_subscription_id
             userid := e.userid
             payload := e.payload
             processed := processed
             error_message := e.error_message
             processed_at := none }] }

/-- Body of `markEventProcessed(stripeEventId, success, errorMessage)`: a
single UPDATE of the event row; errors are caught and swallowed. -/
def markEventProcessed (stmtOk : Bool) (now : String) (db : DB)
    (stripeEventId : String) (success : Bool) (errorMessage : Option String) : DB :=
  if !stmtOk then db
  else
    { db with events := db.events.map (fun r =>
        if r.stripe_event_id == stripeEventId then
          { r with processed := success, error_message := errorMessage,
                   processed_at := some now }
        else r) }

/-! ## Plan configuration (`config/plans.js`) -/

/-- A subscription plan (feature list elided — not consulted by the
webhook path). -/
structure Plan where
  id : String
  name : String
  price : Nat
  deviceLimit : Int
  deriving Repr, DecidableEq

/-- PLANS.TEST -/
def PLANS_TEST : Plan := { id := "test", name := "Test Plan", price := 5, deviceLimit := 5 }

/-- PLANS.BASIC -/
def PLANS_BASIC : Plan := { id := "basic", name := "Basic Plan", price := 20, deviceLimit := 30 }

/-- PLANS.MODERATE -/
def PLANS_MODERATE : Plan := { id := "moderate", name := "Moderate Plan", price := 40, deviceLimit := 80 }

/-- PLANS.ADVANCE -/
def PLANS_ADVANCE : Plan := { id := "advance", name := "Advance Plan", price := 100, deviceLimit := 350 }

/-- The configured Stripe price ids (`config.stripe.prices`). -/
structure StripePrices where
  test : String
  basic : String
  moderate : String
  advance : String
  deriving Repr, DecidableEq

/-- Body of `getPlanByPriceId(priceId, stripePrices)`. -/
def getPlanByPriceId (priceId : String) (p : StripePrices) : Option Plan :=
  if priceId == p.test then some PLANS_TEST
  else if priceId == p.basic then some PLANS_BASIC
  else if priceId == p.moderate then some PLANS_MODERATE
  else if priceId == p.advance then some PLANS_ADVANCE
  else none

/-! ## Stripe webhook route (`routes/webhooks.js`) -/

/-- The `metadata` object of an event payload; every field may be
undefined. -/
structure EventMetadata where
  temporaryPassword : Option String
  userName : Option String
  deviceLimit : Option String
  planId : Option String
  userEmail : Option String
  deriving Repr, DecidableEq

/-- The fields of `event.data.object` read by the six handlers (checkout
sessions, subscriptions and invoices share this record; fields a given
payload kind does not carry are `none`).  `priceId` stands for
`items.data[0].price.id` and is `none` when the payload has no items —
reading it then is a thrown TypeError. -/
structure EventData where
  oid : String
  customer_email : Option String
  customer : Option String
  subscription : Option String
  metadata : EventMetadata
  status : Option String
  priceId : Option String
  deriving Repr, DecidableEq

/-- A provider event envelope. -/
structure StripeEvent where
  id : String
  etype : String
  data : EventData
  deriving Repr, DecidableEq

/-- JS `parseInt(s, 10)` on a possibly-undefined string; `NaN` is `none`.
(The leading-garbage acceptance of `parseInt` is not modelled; callers pass
pure integer strings or undefined.) -/
def parseIntJs (s : Option String) : Option Int :=
  match s with
  | none => none
  | some t => t.toInt?

/-- Ambient inputs of a handler run: the random password generator's output,
the outcomes of the (up to two) credential-verification fetches of the
checkout handler, and `new Date().toISOString()`. -/
structure HandlerEnv where
  randPassword : String
  verify1 : FetchOutcome
  verify2 : FetchOutcome
  nowIso : String
  deriving Repr, DecidableEq

/-- The tail of `handleCheckoutCompleted`: update the user's subscription
metadata attributes (errors propagate to the route). -/
def checkoutFinish (up : Bool) (env : HandlerEnv) (sess : EventData)
    (d : Directory) (userId : Nat) : Except String Unit × Directory :=
  match updateSubscriptionMetadata up d userId
      { customerId := sess.customer
        subscriptionId := sess.subscription
        plan := sess.metadata.planId
        status := some "active"
        startDate := some env.nowIso } with
  | .error e => (.error e, d)
  | .ok (_, d2) => (.ok (), d2)

/-- The user-provisioning branch of `handleCheckoutCompleted` (user not
found): create the user with the temporary password (or a random one),
test the login, and on a failed test try a password reset followed by a
second login test — both inside a `try/catch` whose errors are only
logged. -/
def checkoutProvision (up : Bool) (env : HandlerEnv) (sess : EventData)
    (d : Directory) (email : String) : Except String Unit × Directory :=
  let password := jsOrStr sess.metadata.temporaryPassword env.randPassword
  let name := jsOrStr sess.metadata.userName (emailLocalPart email)
  match createUser up d
      { name := name, email := email, password := password,
        deviceLimit := parseIntJs sess.metadata.deviceLimit } with
  | .error e => (.error e, d)
  | .ok (u, d1) =>
    if verifyUserCredentials env.verify1 then checkoutFinish up env sess d1 u.id
    else
      match updateUserPassword up d1 u.id password with
      | .ok (_, dp) =>
        let _ := verifyUserCredentials env.verify2
        checkoutFinish up env sess dp u.id
      | .error _ => checkoutFinish up env sess d1 u.id

/-- Body of `handleCheckoutCompleted(session)`: bail out when the session
carries no subscription; look the user up by `customer_email`, provisioning
a new account when absent (a session without an email cannot create one —
the directory rejects it); finally write the subscription metadata
attributes. -/
def handleCheckoutCompleted (up : Bool) (env : HandlerEnv) (sess : EventData)
    (d : Directory) : Except String Unit × Directory :=
  if jsStrFalsy sess.subscription then (.ok (), d)
  else
    match getUserByEmail up d sess.customer_email with
    | .error e => (.error e, d)
    | .ok (some u) => checkoutFinish up env sess d u.id
    | .ok none =>
      match sess.customer_email with
      | none => (.error "Traccar API error: user without email", d)
      | some email => checkoutProvision up env sess d email

/-- Body of `handleSubscriptionCreated(subscription)`: resolve the plan from
`items.data[0].price.id` (unknown plan: log and return), find the user by
`metadata.userEmail` (missing email or user: log and return), update the
device limit with the `subscriptionPlan` attribute, then enable the
account. -/
def handleSubscriptionCreated (up : Bool) (prices : StripePrices)
    (sub : EventData) (d : Directory) : Except String Unit × Directory :=
  match sub.priceId with
  | none => (.error "TypeError: cannot read price of undefined items", d)
  | some pid =>
    match getPlanByPriceId pid prices with
    | none => (.ok (), d)
    | some plan =>
      if jsStrFalsy sub.metadata.userEmail then (.ok (), d)
      else
        match getUserByEmail up d sub.metadata.userEmail with
        | .error e => (.error e, d)
        | .ok none => (.ok (), d)
        | .ok (some u) =>
          match updateUserLimits up d u.id plan.deviceLimit
              [("subscriptionPlan", plan.id)] with
          | .error e => (.error e, d)
          | .ok (_, d1) =>
            match setUserStatus up d1 u.id false with
            | .error e => (.error e, d1)
            | .ok (_, d2) => (.ok (), d2)

/-- Body of `handleSubscriptionUpdated(subscription)`: like the created
handler but the attribute delta also carries `subscriptionStatus`; a
past_due/unpaid status only logs (grace period), an active status re-enables
the account. -/
def handleSubscriptionUpdated (up : Bool) (prices : StripePrices)
    (sub : EventData) (d : Directory) : Except String Unit × Directory :=
  match sub.priceId with
  | none => (.error "TypeError: cannot read price of undefined items", d)
  | some pid =>
    match getPlanByPriceId pid prices with
    | none => (.ok (), d)
    | some plan =>
      if jsStrFalsy sub.metadata.userEmail then (.ok (), d)
      else
        match getUserByEmail up d sub.metadata.userEmail with
        | .error e => (.error e, d)
        | .ok none => (.ok (), d)
        | .ok (some u) =>
          match updateUserLimits up d u.id plan.deviceLimit
              ([("subscriptionPlan", plan.id)] ++
               optAttr "subscriptionStatus" sub.status) with
          | .error e => (.error e, d)
          | .ok (_, d1) =>
            if sub.status == some "unpaid" || sub.status == some "past_due" then
              (.ok (), d1)
            else if sub.status == some "active" then
              match setUserStatus up d1 u.id false with
              | .error e => (.error e, d1)
              | .ok (_, d2) => (.ok (), d2)
            else (.ok (), d1)

/-- Body of `handleSubscriptionDeleted(subscription)`: find the user by
`metadata.userEmail` (missing email or user: log and return), disable the
account, then reduce the device limit to 0 with the `subscriptionStatus`
attribute set to canceled. -/
def handleSubscriptionDeleted (up : Bool) (sub : EventData) (d : Directory) :
    Except String Unit × Directory :=
  if jsStrFalsy sub.metadata.userEmail then (.ok (), d)
  else
    match getUserByEmail up d sub.metadata.userEmail with
    | .error e => (.error e, d)
    | .ok none => (.ok (), d)
    | .ok (some u) =>
      match setUserStatus up d u.id true with
      | .error e => (.error e, d)
      | .ok (_, d1) =>
        match updateUserLimits up d1 u.id 0 [("subscriptionStatus", "canceled")] with
        | .error e => (.error e, d1)
        | .ok (_, d2) => (.ok (), d2)

/-- Body of `handlePaymentFailed(invoice)`: find the user by the invoice's
`customer_email` and rewrite the status attributes, keeping the user's
current device limit. -/
def handlePaymentFailed (up : Bool) (env : HandlerEnv) (inv : EventData)
    (d : Directory) : Except String Unit × Directory :=
  if jsStrFalsy inv.customer_email then (.ok (), d)
  else
    match getUserByEmail up d inv.customer_email with
    | .error e => (.error e, d)
    | .ok none => (.ok (), d)
    | .ok (some u) =>
      match updateUserLimits up d u.id u.deviceLimit
          [("subscriptionStatus", "payment_failed"),
           ("lastPaymentAttempt", env.nowIso)] with
      | .error e => (.error e, d)
      | .ok (_, d1) => (.ok (), d1)

/-- Body of `handlePaymentSucceeded(invoice)`: rewrite the status attributes
keeping the current device limit, then ensure the account is enabled. -/
def handlePaymentSucceeded (up : Bool) (env : HandlerEnv) (inv : EventData)
    (d : Directory) : Except String Unit × Directory :=
  if jsStrFalsy inv.customer_email then (.ok (), d)
  else
    match getUserByEmail up d inv.customer_email with
    | .error e => (.error e, d)
    | .ok none => (.ok (), d)
    | .ok (some u) =>
      match updateUserLimits up d u.id u.deviceLimit
          [("subscriptionStatus", "active"),
           ("lastPaymentDate", env.nowIso)] with
      | .error e => (.error e, d)
      | .ok (_, d1) =>
        match setUserStatus up d1 u.id false with
        | .error e => (.error e, d1)
        | .ok (_, d2) => (.ok (), d2)

/-- The six event types the switch statement handles. -/
def handledTypes : List String :=
  ["checkout.session.completed", "customer.subscription.created",
   "customer.subscription.updated", "customer.subscription.deleted",
   "invoice.payment_failed", "invoice.payment_succeeded"]

/-- The `switch (event.type)` dispatch of the webhook route; unhandled types
are logged and fall through to the success response. -/
def dispatchEvent (up : Bool) (prices : StripePrices) (env : HandlerEnv)
    (ev : StripeEvent) (d : Directory) : Except String Unit × Directory :=
  if ev.etype == "checkout.session.completed" then
    handleCheckoutCompleted up env ev.data d
  else if ev.etype == "customer.subscription.created" then
    handleSubscriptionCreated up prices ev.data d
  else if ev.etype == "customer.subscription.updated" then
    handleSubscriptionUpdated up prices ev.data d
  else if ev.etype == "customer.subscription.deleted" then
    handleSubscriptionDeleted up ev.data d
  else if ev.etype == "invoice.payment_failed" then
    handlePaymentFailed up env ev.data d
  else if ev.etype == "invoice.payment_succeeded" then
    handlePaymentSucceeded up env ev.data d
  else (.ok (), d)

/-- The application state visible to the webhook route: the external
directory and the relational store.  The route module imports only the
Traccar client, so `db` can only be read or written through operations
that take it explicitly — `stripeWebhook` below takes none. -/
structure Sys where
  dir : Directory
  db : DB
  deriving Repr, DecidableEq

/-- The HTTP response of the route: the status code, and whether the body is
the acceptance body `{received: true}` (sent exactly by the 200 path). -/
structure WebhookResponse where
  status : Nat
  receivedTrue : Bool
  deriving Repr, DecidableEq

/-- Body of `router.post('/stripe')`: `constructEvent` throws on a bad
signature — 400 before any processing; otherwise the switch dispatches the
event, a thrown processing error becomes a 500, and success responds 200
with `{received: true}`. -/
def stripeWebhook (up : Bool) (prices : StripePrices) (env : HandlerEnv)
    (sigValid : Bool) (ev : StripeEvent) (s : Sys) : WebhookResponse × Sys :=
  if !sigValid then ({ status := 400, receivedTrue := false }, s)
  else
    match dispatchEvent up prices env ev s.dir with
    | (.ok _, d1) => ({ status := 200, receivedTrue := true }, { s with dir := d1 })
    | (.error _, d1) => ({ status := 500, receivedTrue := false }, { s with dir := d1 })

/-! ## Concrete fixtures for witnesses and counterexamples -/

/-- A directory user with an active subscription recorded in attributes. -/
def aliceUser : TUser :=
  { id := 1, name := "Alice", email := "alice@x.com", password := "pw1",
    disabled := false, administrator := false, readonly := false,
    deviceReadonly := false, limitCommands := false, deviceLimit := 30,
    attributes := [("subscriptionStatus", "active")] }

/-- A one-user directory. -/
def dir0 : Directory := { users := [aliceUser], nextUserId := 2, putCount := 0, postCount := 0 }

/-- A store with the matching `tc_users` row and no events or history. -/
def db0 : DB := { users := [⟨1, 30, none⟩], subs := [], history := [], events := [], nextSubId := 1 }

/-- The combined initial state. -/
def sys0 : Sys := { dir := dir0, db := db0 }

/-- A well-formed `customer.subscription.deleted` event for Alice. -/
def evDeleted : StripeEvent :=
  { id := "evt_dup_1", etype := "customer.subscription.deleted",
    data :=
      { oid := "sub_1", customer_email := none, customer := none,
        subscription := none,
        metadata :=
          { temporaryPassword := none, userName := none, deviceLimit := none,
            planId := none, userEmail := some "alice@x.com" },
        status := none, priceId := none } }

/-- An ambient handler environment. -/
def envX : HandlerEnv :=
  { randPassword := "rand-pw", verify1 := .response 200,
    verify2 := .response 200, nowIso := "2026-01-01T00:00:00.000Z" }

/-- Configured price ids. -/
def pricesX : StripePrices :=
  { test := "price_t", basic := "price_b", moderate := "price_m", advance := "price_a" }

/-- An active basic subscription row for database user 7. -/
def subRow7 : SubRow :=
  { id := 1, userid := 7, plan_id := "basic", stripe_customer_id := "cus_1",
    stripe_subscription_id := "sub_1", stripe_payment_method_id := none,
    status := "active", device_limit := 30, current_period_start := none,
    current_period_end := some "2026-02-01", trial_start := none,
    trial_end := none, canceled_at := none, cancel_at_period_end := false,
    ended_at := none }

/-- A store holding user 7's active subscription. -/
def dbC4 : DB :=
  { users := [⟨7, 30, some "2026-02-01"⟩], subs := [subRow7], history := [],
    events := [], nextSubId := 2 }

/-- Every SQL statement succeeds. -/
def envAllOk : Nat → Bool := fun _ => true

/-- Statement 1 of a method fails (for `endSubscription` that is the sync
`CALL`, for `cancelSubscription` the history INSERT); the surrounding
statements succeed. -/
def envStmt1Fails : Nat → Bool := fun n => n != 1

/-- Every SQL statement fails. -/
def envAllFail : Nat → Bool := fun _ => false

/-- A concrete `subscriptionData` payload. -/
def dataX : SubData :=
  { plan_id := "moderate", stripe_customer_id := "cus_1",
    stripe_subscription_id := "sub_1", stripe_payment_method_id := none,
    status := "active", device_limit := 80, current_period_start := none,
    current_period_end := some "2026-03-01", trial_start := none,
    trial_end := none, canceled_at := none, cancel_at_period_end := some false }

/-! ## Helper lemmas -/

/-- A successful `find?` yields a positive `any` under the same predicate. -/
theorem any_of_find?_isSome {α : Type} (p : α → Bool) (l : List α)
    (h : (l.find? p).isSome = true) : l.any p = true := by
  induction l with
  | nil => simp at h
  | cons a t ih =>
    cases hp : p a with
    | true => simp [hp]
    | false =>
      rw [List.find?_cons_of_neg _ (by simp [hp])] at h
      simp [hp, ih h]

/-- Replacing the first user with a given id rewrites what an id lookup
finds: if the lookup succeeded before, it now returns the replacement. -/
theorem find?_id_replaceById (us : List TUser) (u : TUser) (n : Nat)
    (h : (us.find? (fun w => w.id == n)).isSome = true) (hu : u.id = n) :
    (replaceById us u).find? (fun w => w.id == n) = some u := by
  induction us with
  | nil => simp at h
  | cons w t ih =>
    by_cases hw : w.id = u.id
    · have hb : (w.id == u.id) = true := by simp [hw]
      rw [show replaceById (w :: t) u = u :: t from by simp [replaceById, hb]]
      exact List.find?_cons_of_pos _ (by simp [hu])
    · have hb : (w.id == u.id) = false := by simp [hw]
      have hn : w.id ≠ n := fun hh => hw (by rw [hu]; exact hh)
      rw [show replaceById (w :: t) u = w :: replaceById t u from by
        simp [replaceById, hb]]
      rw [List.find?_cons_of_neg _ (by simp [hn])] at h ⊢
      exact ih h

/-- Spreading a singleton attribute object over a base always makes the
spread key's value win. -/
theorem getAttr_jsSpread_single (base : AttrMap) (k v : String) :
    getAttr (jsSpread base [(k, v)]) k = some v := by
  induction base with
  | nil => simp [jsSpread, getAttr]
  | cons p rest ih =>
    by_cases hk : k = p.1
    · rw [show jsSpread (p :: rest) [(k, v)] = jsSpread rest [(k, v)] from by
        simp [jsSpread, List.filter_cons, hk]]
      exact ih
    · rw [show jsSpread (p :: rest) [(k, v)] = p :: jsSpread rest [(k, v)] from by
        simp [jsSpread, List.filter_cons, hk]]
      have hp : (p.1 == k) = false := by
        simp [Ne.symm hk]
      have hfind : List.find? (fun q => q.1 == k) (p :: jsSpread rest [(k, v)])
          = List.find? (fun q => q.1 == k) (jsSpread rest [(k, v)]) :=
        List.find?_cons_of_neg _ (by simp [hp])
      rw [show getAttr (p :: jsSpread rest [(k, v)]) k
          = getAttr (jsSpread rest [(k, v)]) k from by
        simp only [getAttr, hfind]]
      exact ih

/-- Mapping a userid-preserving function over subscription rows preserves
whether a user lookup succeeds. -/
theorem find?_userid_isSome_map (g : SubRow → SubRow)
    (hg : ∀ r, (g r).userid = r.userid) (l : List SubRow) (u : Nat) :
    ((l.map g).find? (fun r => r.userid == u)).isSome
      = (l.find? (fun r => r.userid == u)).isSome := by
  induction l with
  | nil => simp
  | cons r t ih =>
    simp only [List.map_cons, List.find?_cons]
    rw [hg r]
    cases hr : (r.userid == u) with
    | true => simp
    | false => simpa using ih

/-- The flag UPDATE of `cancelSubscription` rewrites the subscription rows
pointwise. -/
theorem execCancelUpdate_subs (db : DB) (userId : Nat) (flag : Bool) (now : String) :
    (execCancelUpdate db userId flag now).subs
      = db.subs.map (fun r =>
          if r.userid == userId && statusActiveLike r.status then
            cancelUpdatedRow r flag now
          else r) := by
  by_cases hm : (db.subs.any (fun r => r.userid == userId && statusActiveLike r.status)) = true
  · simp [execCancelUpdate, syncToUser, hm]
  · simp [execCancelUpdate, syncToUser, hm]

/-- The flag UPDATE of `cancelSubscription` leaves the history table
untouched (its triggers only sync `tc_users`). -/
theorem execCancelUpdate_history (db : DB) (userId : Nat) (flag : Bool) (now : String) :
    (execCancelUpdate db userId flag now).history = db.history := by
  by_cases hm : (db.subs.any (fun r => r.userid == userId && statusActiveLike r.status)) = true
  · simp [execCancelUpdate, syncToUser, hm]
  · simp [execCancelUpdate, syncToUser, hm]

/-- When the user has a subscription row, a successful
`addSubscriptionHistory` appends exactly one row copied from it. -/
theorem addSubscriptionHistory_append (db : DB) (userId : Nat)
    (et desc : String) (md : Option AttrMap) (r : SubRow)
    (hr : db.subs.find? (fun x => x.userid == userId) = some r) :
    addSubscriptionHistory true db userId et desc md
      = { db with history := db.history ++
          [{ userid := userId, subscription_id := r.id, plan_id := r.plan_id,
             status := r.status, event_type := et, description := desc,
             metadata := md }] } := by
  simp [addSubscriptionHistory, hr]

/-- Writing back an existing user succeeds and replaces its record. -/
theorem putUser_ok (d : Directory) (w : TUser)
    (hw : d.users.any (fun v => v.id == w.id) = true) :
    putUser true d w
      = .ok { d with
          users := replaceById d.users w
          putCount := d.putCount + 1 } := by
  simp only [putUser, hw]
  rfl

/-- A successful id lookup determines the behaviour of `setUserStatus`:
the fetched user is written back with the new `disabled` flag via one
PUT. -/
theorem setUserStatus_ok (d : Directory) (u : TUser) (n : Nat) (b : Bool)
    (hid : d.users.find? (fun w => w.id == n) = some u) :
    setUserStatus true d n b
      = .ok ({ u with disabled := b },
          { d with
            users := replaceById d.users { u with disabled := b }
            putCount := d.putCount + 1 }) := by
  have hun : u.id = n := by
    have h := List.find?_some hid
    simpa using h
  subst hun
  have hany : d.users.any (fun v => v.id == u.id) = true :=
    any_of_find?_isSome _ _ (by rw [hid]; rfl)
  simp [setUserStatus, getUserById, hid]
  rw [putUser_ok d { u with disabled := b } hany]

/-- A successful id lookup determines the behaviour of `updateUserLimits`:
the fetched user is written back with the new device limit and spread
attributes via one PUT. -/
theorem updateUserLimits_ok (d : Directory) (u : TUser) (n : Nat) (lim : Int)
    (attrs : AttrMap)
    (hid : d.users.find? (fun w => w.id == n) = some u) :
    updateUserLimits true d n lim attrs
      = .ok ({ u with
               deviceLimit := lim
               attributes := jsSpread u.attributes attrs },
          { d with
            users := replaceById d.users
              { u with
                deviceLimit := lim
                attributes := jsSpread u.attributes attrs }
            putCount := d.putCount + 1 }) := by
  have hun : u.id = n := by
    have h := List.find?_some hid
    simpa using h
  subst hun
  have hany : d.users.any (fun v => v.id == u.id) = true :=
    any_of_find?_isSome _ _ (by rw [hid]; rfl)
  simp [updateUserLimits, getUserById, hid]
  rw [putUser_ok d
    { u with deviceLimit := lim, attributes := jsSpread u.attributes attrs } hany]

/-! ## Claim C9 — credential verification is total -/

/-- C9: `verifyUserCredentials` returns a boolean for every outcome and
never throws: `true` exactly for a 2xx response of the throwaway login
attempt, `false` for a non-2xx response, and `false` for a network-level
error (which the inner attempt raises and the catch swallows). -/
theorem spec_c9_theorem :
    (∀ s : Nat, 200 ≤ s → s < 300 → verifyUserCredentials (.response s) = true) ∧
    (∀ s : Nat, s < 200 ∨ 300 ≤ s → verifyUserCredentials (.response s) = false) ∧
    verifyUserCredentials .netError = false ∧
    (∀ o : FetchOutcome, verifyAttempt o = .error "fetch failed" →
      verifyUserCredentials o = false) := by
  refine ⟨?_, ?_, rfl, ?_⟩
  · intro s h1 h2
    simp [verifyUserCredentials, verifyAttempt, responseOk, h1, h2]
  · intro s h
    rcases h with h | h
    · simp [verifyUserCredentials, verifyAttempt, responseOk]
      omega
    · simp [verifyUserCredentials, verifyAttempt, responseOk]
      omega
  · intro o h
    simp [verifyUserCredentials, h]

/-- C9 witness: concrete outcomes. -/
theorem spec_c9_witness :
    verifyUserCredentials (.response 200) = true ∧
    verifyUserCredentials (.response 401) = false := by
  exact ⟨spec_c9_theorem.1 200 (by decide) (by decide),
         spec_c9_theorem.2.1 401 (Or.inr (by decide))⟩

/-! ## Claim C10 — createUser payload defaults -/

/-- C10: the payload sent by `createUser` always carries
`disabled = false`, `administrator = false`, `readonly = false`,
`deviceReadonly = false` and `limitCommands = false`, and a missing or zero
`deviceLimit` in the profile defaults to -1 (unlimited devices). -/
theorem spec_c10_theorem :
    ∀ p : NewUserProfile,
      (createUserPayload p).disabled = false ∧
      (createUserPayload p).administrator = false ∧
      (createUserPayload p).readonly = false ∧
      (createUserPayload p).deviceReadonly = false ∧
      (createUserPayload p).limitCommands = false ∧
      ((p.deviceLimit = none ∨ p.deviceLimit = some 0) →
        (createUserPayload p).deviceLimit = -1) := by
  intro p
  refine ⟨rfl, rfl, rfl, rfl, rfl, ?_⟩
  rintro (h | h) <;> simp [createUserPayload, jsOrInt, h]

/-- C10 witness: a profile with a zero device limit. -/
theorem spec_c10_witness :
    (createUserPayload
        { name := "n"
          email := "e@x.com"
          password := "p"
          deviceLimit := some 0 }).disabled = false ∧
    (createUserPayload
        { name := "n"
          email := "e@x.com"
          password := "p"
          deviceLimit := some 0 }).deviceLimit = -1 := by
  exact ⟨(spec_c10_theorem _).1,
         (spec_c10_theorem
           { name := "n"
             email := "e@x.com"
             password := "p"
             deviceLimit := some 0 }).2.2.2.2.2 (Or.inr rfl)⟩

/-! ## Claim C7 — session caching, no authentication retry

The claim's caching half holds, but its retry half does not: `authenticate`
throws on the first failed login fetch and never retries. -/

/-- C7 counterexample: with an empty cache and a first login fetch failing
(401) while a second attempt would succeed, `authenticate` surfaces the
error after exactly one fetch — the claimed single retry does not happen. -/
theorem spec_c7_counterexample :
    authenticate { sessionCookie := none, sessionExpiry := none } 0
        [.response 401 none, .response 200 (some "JSESSIONID=x; Path=/")] =
      (.error "Traccar authentication failed",
        { sessionCookie := none, sessionExpiry := none }, 1) := by
  rfl

/-- C7 (amended): `authenticate` caches the session token with an expiry 23
hours ahead (shorter than the typical 24-hour server-side session), returns
the cached token without any network call while it is unexpired, and
re-authenticates once it has expired; an authentication failure (network
error or non-2xx response) surfaces an error immediately after the single
login fetch, with no retry. -/
theorem spec_c7_theorem :
    (∀ (st : TSession) (now : Nat) (os : List AuthOutcome) (c : String) (e : Nat),
      st.sessionCookie = some c → st.sessionExpiry = some e → now < e →
      authenticate st now os = (.ok (some c), st, 0)) ∧
    (∀ (st : TSession) (now : Nat) (os : List AuthOutcome) (c : String) (e : Nat),
      st.sessionCookie = some c → st.sessionExpiry = some e → e ≤ now →
      authenticate st now os = authFresh st now os) ∧
    (∀ (st : TSession) (now : Nat) (rest : List AuthOutcome) (status : Nat)
        (cs : String), responseOk status = true →
      authFresh st now (.response status (some cs) :: rest) =
        (.ok (some (cookieFirstPart cs)),
          { sessionCookie := some (cookieFirstPart cs),
            sessionExpiry := some (now + 23 * 60 * 60 * 1000) }, 1)) ∧
    (∀ (st : TSession) (now : Nat) (rest : List AuthOutcome),
      authFresh st now (.netError :: rest) =
        (.error "Failed to authenticate with Traccar", st, 1)) ∧
    (∀ (st : TSession) (now : Nat) (rest : List AuthOutcome) (status : Nat)
        (sc : Option String), responseOk status = false →
      authFresh st now (.response status sc :: rest) =
        (.error "Traccar authentication failed", st, 1)) := by
  refine ⟨?_, ?_, ?_, ?_, ?_⟩
  · intro st now os c e hc he hlt
    simp [authenticate, hc, he, hlt]
  · intro st now os c e hc he hge
    simp [authenticate, hc, he, Nat.not_lt.mpr hge]
  · intro st now rest status cs hok
    simp [authFresh, hok]
  · intro st now rest
    rfl
  · intro st now rest status sc hbad
    cases sc <;> simp [authFresh, hbad]

/-- C7 witness: a cached unexpired session is returned without a fetch, and
an expired one triggers a successful re-authentication with a 23-hour
expiry. -/
theorem spec_c7_witness :
    authenticate { sessionCookie := some "JSESSIONID=a", sessionExpiry := some 100 } 50
        [] = (.ok (some "JSESSIONID=a"),
          { sessionCookie := some "JSESSIONID=a", sessionExpiry := some 100 }, 0) ∧
    authFresh { sessionCookie := none, sessionExpiry := none } 7
        [.response 200 (some "JSESSIONID=b; Path=/")] =
      (.ok (some "JSESSIONID=b"),
        { sessionCookie := some "JSESSIONID=b",
          sessionExpiry := some (7 + 23 * 60 * 60 * 1000) }, 1) := by
  constructor
  · exact spec_c7_theorem.1 _ 50 [] "JSESSIONID=a" 100 rfl rfl (by decide)
  · have h := spec_c7_theorem.2.2.1
      { sessionCookie := none, sessionExpiry := none } 7 []
      200 "JSESSIONID=b; Path=/" (by decide)
    rw [show ("JSESSIONID=b" : String) = cookieFirstPart "JSESSIONID=b; Path=/" from by decide]
    exact h

/-! ## Claim C8 — unknown event types are accepted and ignored -/

/-- C8: for every event whose type is not one of the six handled types, the
webhook handler (with a valid signature) responds 200 with
`received: true`, performs no directory or repository mutation (the state
is returned unchanged), and never returns an error. -/
theorem spec_c8_theorem :
    ∀ (up : Bool) (prices : StripePrices) (env : HandlerEnv)
      (ev : StripeEvent) (s : Sys),
      ev.etype ∉ handledTypes →
      stripeWebhook up prices env true ev s
        = ({ status := 200, receivedTrue := true }, s) := by
  intro up prices env ev s h
  simp only [handledTypes, List.mem_cons, List.not_mem_nil, or_false, not_or] at h
  obtain ⟨h1, h2, h3, h4, h5, h6⟩ := h
  simp [stripeWebhook, dispatchEvent, h1, h2, h3, h4, h5, h6]

/-- C8 witness: an `invoice.created` event. -/
theorem spec_c8_witness :
    stripeWebhook true pricesX envX true
        { id := "evt_u", etype := "invoice.created", data := evDeleted.data } sys0
      = ({ status := 200, receivedTrue := true }, sys0) := by
  exact spec_c8_theorem true pricesX envX _ sys0 (by simp [handledTypes])

/-! ## Claim C3 — response-status taxonomy of the webhook route -/

/-- C3: the route responds 400 exactly when signature verification fails
(and then performs no event processing: the state is unchanged); it
responds 200 exactly when the signature is valid and the dispatched
processing finished without throwing; it responds 500 exactly when the
signature is valid and the processing threw an internal error. -/
theorem spec_c3_theorem :
    ∀ (up : Bool) (prices : StripePrices) (env : HandlerEnv) (sigValid : Bool)
      (ev : StripeEvent) (s : Sys),
      ((stripeWebhook up prices env sigValid ev s).1.status = 400 ↔
        sigValid = false) ∧
      (sigValid = false → (stripeWebhook up prices env sigValid ev s).2 = s) ∧
      ((stripeWebhook up prices env sigValid ev s).1.status = 200 ↔
        sigValid = true ∧ (dispatchEvent up prices env ev s.dir).1 = .ok ()) ∧
      ((stripeWebhook up prices env sigValid ev s).1.status = 500 ↔
        sigValid = true ∧ ∃ msg, (dispatchEvent up prices env ev s.dir).1 = .error msg) := by
  intro up prices env sigValid ev s
  cases sigValid with
  | false => simp [stripeWebhook]
  | true =>
    rcases hd : dispatchEvent up prices env ev s.dir with ⟨res, d1⟩
    cases res with
    | ok u =>
      cases u
      simp [stripeWebhook, hd]
    | error msg => simp [stripeWebhook, hd]

/-- C3 witness: a bad signature yields 400 with the state untouched. -/
theorem spec_c3_witness :
    (stripeWebhook true pricesX envX false evDeleted sys0).1.status = 400 ∧
    (stripeWebhook true pricesX envX false evDeleted sys0).2 = sys0 := by
  exact ⟨(spec_c3_theorem true pricesX envX false evDeleted sys0).1.mpr rfl,
         (spec_c3_theorem true pricesX envX false evDeleted sys0).2.1 rfl⟩

/-! ## Claim C6 — effect of `customer.subscription.deleted` -/

/-- C6: for a `customer.subscription.deleted` event carrying the email of an
existing directory user (whose id lookup finds that same user), the handler
succeeds and afterwards the account is disabled, its device limit is 0, and
its `subscriptionStatus` attribute is `canceled`. -/
theorem spec_c6_theorem :
    ∀ (d : Directory) (u : TUser) (sub : EventData) (e : String),
      sub.metadata.userEmail = some e → e ≠ "" →
      d.users.find? (fun v => some v.email == some e) = some u →
      d.users.find? (fun w => w.id == u.id) = some u →
      ∃ d2, handleSubscriptionDeleted true sub d = (.ok (), d2) ∧
        ∃ u2, d2.users.find? (fun w => w.id == u.id) = some u2 ∧
          u2.disabled = true ∧ u2.deviceLimit = 0 ∧
          getAttr u2.attributes "subscriptionStatus" = some "canceled" := by
  intro d u sub e hmail hne hfind hid
  have hfalsy : jsStrFalsy sub.metadata.userEmail = false := by
    rw [hmail]
    simp [jsStrFalsy, hne]
  have hmailEq : getUserByEmail true d sub.metadata.userEmail = .ok (some u) := by
    rw [hmail]
    unfold getUserByEmail
    rw [if_pos rfl, hfind]
  have h2 := setUserStatus_ok d u u.id true hid
  have hid1 : (replaceById d.users { u with disabled := true }).find?
      (fun w => w.id == u.id) = some { u with disabled := true } :=
    find?_id_replaceById _ _ _ (by rw [hid]; rfl) rfl
  have h3 := updateUserLimits_ok
      { d with
        users := replaceById d.users { u with disabled := true }
        putCount := d.putCount + 1 }
      { u with disabled := true } u.id 0 [("subscriptionStatus", "canceled")] hid1
  refine ⟨{ d with
      users := replaceById (replaceById d.users { u with disabled := true })
        { u with
          disabled := true
          deviceLimit := 0
          attributes := jsSpread u.attributes [("subscriptionStatus", "canceled")] }
      putCount := d.putCount + 1 + 1 },
    ?_,
    { u with
      disabled := true
      deviceLimit := 0
      attributes := jsSpread u.attributes [("subscriptionStatus", "canceled")] },
    ?_, rfl, rfl, getAttr_jsSpread_single _ _ _⟩
  · simp [handleSubscriptionDeleted, hfalsy, hmailEq, h2, h3]
  · exact find?_id_replaceById _ _ _ (by rw [hid1]; rfl) rfl

/-- C6 witness: Alice's account after a deletion event. -/
theorem spec_c6_witness :
    ∃ d2, handleSubscriptionDeleted true evDeleted.data dir0 = (.ok (), d2) ∧
      ∃ u2, d2.users.find? (fun w => w.id == aliceUser.id) = some u2 ∧
        u2.disabled = true ∧ u2.deviceLimit = 0 ∧
        getAttr u2.attributes "subscriptionStatus" = some "canceled" := by
  exact spec_c6_theorem dir0 aliceUser evDeleted.data "alice@x.com"
    rfl (by decide) rfl rfl

/-! ## Claim C5 — cancelSubscription history is not idempotent

The claim fails: the history entry is written unconditionally on every
call, not only on a transition. -/

/-- C5 counterexample: with user 7 holding an active subscription whose
cancel flag is not yet set, two identical `cancelSubscription(7, true)`
calls append one history row each — the second, no-op call also writes a
history entry, so the claimed single entry does not hold. -/
theorem spec_c5_counterexample :
    ((cancelSubscription envAllOk "t1" dbC4 7 true).2).history.length = 1 ∧
    ((cancelSubscription envAllOk "t2"
        ((cancelSubscription envAllOk "t1" dbC4 7 true).2) 7 true).2).history.length
      = 2 :=
  ⟨rfl, rfl⟩

/-- C5 (amended): `cancelSubscription` appends exactly one
`subscription_canceled` history entry on every successful call for a user
who has a subscription row — including no-op calls that set the flag to its
current value — so two same-flag calls produce two entries. -/
theorem spec_c5_theorem :
    ∀ (db : DB) (userId : Nat) (flag : Bool) (now : String),
      (db.subs.find? (fun r => r.userid == userId)).isSome = true →
      ∃ h, ((cancelSubscription envAllOk now db userId flag).2).history
          = db.history ++ [h] ∧ h.event_type = "subscription_canceled" := by
  intro db userId flag now hsome
  have hg : ∀ r : SubRow,
      ((fun r => if r.userid == userId && statusActiveLike r.status then
          cancelUpdatedRow r flag now else r) r).userid = r.userid := by
    intro r
    by_cases hc : (r.userid == userId && statusActiveLike r.status) = true
    · simp [hc, cancelUpdatedRow]
    · simp [hc]
  have hsubs : ((execCancelUpdate db userId flag now).subs.find?
      (fun r => r.userid == userId)).isSome = true := by
    rw [execCancelUpdate_subs db userId flag now,
      find?_userid_isSome_map _ hg db.subs userId]
    exact hsome
  obtain ⟨r, hr⟩ := Option.isSome_iff_exists.mp hsubs
  have hred : (cancelSubscription envAllOk now db userId flag).2
      = addSubscriptionHistory true (execCancelUpdate db userId flag now) userId
          "subscription_canceled"
          (if flag then "Subscription will cancel at period end"
           else "Subscription cancellation undone") none := rfl
  refine ⟨{ userid := userId
            subscription_id := r.id
            plan_id := r.plan_id
            status := r.status
            event_type := "subscription_canceled"
            description := (if flag then "Subscription will cancel at period end"
              else "Subscription cancellation undone")
            metadata := none }, ?_, rfl⟩
  rw [hred, addSubscriptionHistory_append _ _ _ _ _ r hr]
  simp [execCancelUpdate_history]

/-- C5 witness: the amended statement at a concrete store. -/
theorem spec_c5_witness :
    ∃ h, ((cancelSubscription envAllOk "t1" dbC4 7 true).2).history
        = dbC4.history ++ [h] ∧ h.event_type = "subscription_canceled" :=
  spec_c5_theorem dbC4 7 true "t1" rfl

/-! ## Claim C4 — only upsertSubscription is transactional

The claim fails for `cancelSubscription` and `endSubscription`, which run
their statements without a transaction. -/

/-- C4 counterexample: `endSubscription` with a failing sync `CALL`
(statement 1) surfaces the error, yet the database state differs from the
initial one — the status UPDATE of statement 0 stays committed, so the
claimed all-or-nothing behaviour does not hold. -/
theorem spec_c4_counterexample :
    (endSubscription envStmt1Fails "t0" dbC4 7).1 = .error "sync failed" ∧
    (endSubscription envStmt1Fails "t0" dbC4 7).2 ≠ dbC4 :=
  ⟨rfl, by decide⟩

/-- C4 (amended): `upsertSubscription` runs its lookup → insert/update →
sync sequence inside a single transaction, so on any error the database is
unchanged; but `cancelSubscription` and `endSubscription` auto-commit each
statement: `endSubscription` can fail after its status UPDATE has committed
(status already `canceled` despite the reported error), and
`cancelSubscription` swallows a failure of its history INSERT, committing
the flag update with no history entry. -/
theorem spec_c4_theorem :
    (∀ (env : Nat → Bool) (db : DB) (userId : Nat) (d : SubData) (msg : String),
        (upsertSubscription env db userId d).1 = .error msg →
        (upsertSubscription env db userId d).2 = db) ∧
    ((endSubscription envStmt1Fails "t0" dbC4 7).1 = .error "sync failed" ∧
      (endSubscription envStmt1Fails "t0" dbC4 7).2.subs.map (fun r => r.status)
        = ["canceled"]) ∧
    ((cancelSubscription envStmt1Fails "t0" dbC4 7 true).1 = .ok () ∧
      (cancelSubscription envStmt1Fails "t0" dbC4 7 true).2.history = [] ∧
      (cancelSubscription envStmt1Fails "t0" dbC4 7 true).2.subs.map
        (fun r => r.cancel_at_period_end) = [true]) := by
  refine ⟨?_, ⟨rfl, rfl⟩, ⟨rfl, rfl, rfl⟩⟩
  intro env db userId d msg h
  unfold upsertSubscription at h ⊢
  cases hE0 : env 0 with
  | false => simp [hE0]
  | true =>
    simp only [hE0] at h ⊢
    cases hf : db.subs.find? (fun r => r.userid == userId) with
    | some r =>
      simp [hf] at h ⊢
      cases hE1 : env 1 with
      | false => simp [hE1]
      | true =>
        simp [hE1] at h ⊢
        cases hE2 : env 2 with
        | false => simp [hE2]
        | true => simp [hE2] at h
    | none =>
      simp [hf] at h ⊢
      cases hE1 : env 1 with
      | false => simp [hE1]
      | true =>
        simp [hE1] at h ⊢
        cases hE2 : env 2 with
        | false => simp [hE2]
        | true => simp [hE2] at h

/-- C4 witness: a failing transaction leaves the concrete store
unchanged. -/
theorem spec_c4_witness :
    (upsertSubscription envAllFail dbC4 7 dataX).2 = dbC4 :=
  spec_c4_theorem.1 envAllFail dbC4 7 dataX "select failed" rfl

/-! ## Claim C1 — no Event Store consultation on the webhook path

The claim fails against the code: the webhook route imports only the
Traccar client; `logStripeEvent` / `markEventProcessed` have no caller, so
no check-or-insert happens and a duplicate delivery re-runs all effects. -/

/-- C1: delivering the same `customer.subscription.deleted` event id twice
produces two accepted 200 responses with the same `received: true` body (no
duplicate report), zero Event Store records and zero history rows, and the
directory is mutated again on the second delivery (4 PUT requests in total
instead of the 2 of a single processing). -/
theorem spec_c1_theorem :
    (stripeWebhook true pricesX envX true evDeleted sys0).1
        = { status := 200, receivedTrue := true } ∧
    (stripeWebhook true pricesX envX true evDeleted sys0).2.dir.putCount = 2 ∧
    (stripeWebhook true pricesX envX true evDeleted
        ((stripeWebhook true pricesX envX true evDeleted sys0).2)).1
        = { status := 200, receivedTrue := true } ∧
    (stripeWebhook true pricesX envX true evDeleted
        ((stripeWebhook true pricesX envX true evDeleted sys0).2)).2.db = db0 ∧
    (stripeWebhook true pricesX envX true evDeleted
        ((stripeWebhook true pricesX envX true evDeleted sys0).2)).2.dir.putCount
      = 4 :=
  ⟨rfl, rfl, rfl, rfl, rfl⟩

/-! ## Claim C2 — no Event Store marking on directory failure

The claim fails against the code: when a directory call fails during
processing, the route responds 500 and nothing is recorded or marked in
`tc_stripe_events` (`markEventProcessed` has no caller); there is no
repository write on the webhook path at all. -/

/-- C2: processing a `customer.subscription.deleted` event while the
directory is unavailable yields a 500 response and leaves the entire state
— including the Event Store — untouched: the event is neither marked
processed nor marked failed. -/
theorem spec_c2_theorem :
    stripeWebhook false pricesX envX true evDeleted sys0
      = ({ status := 500, receivedTrue := false }, sys0) :=
  rfl

end Traczi
